import Mathlib

/-!
# Verification of the F1-Notif-Bot reconciliation core

A shallow embedding, in Lean 4, of the scheduling and reconciliation logic of
the F1-Notif-Bot repository, together with theorems settling the frozen claims
about its specification.

The repository keeps several historical implementations of the same core side
by side:

* `src/bot/notifs.rs`, `src/bot/calendar.rs` and `src/model/mod.rs` — the
  sqlx/Postgres generation (`check_notify_session`, `runner`,
  `mark_session_notified`, `mark_weekend_done`, `remove_old_notifs`,
  `populate_calendar`, `impl Hash for Weekend`, `impl Display for Weekend`);
* `src/util/helpers.rs` and `src/bot/mod.rs` — the libsql generation
  (`check_active_session`, `check_expired_messages`, `check_expired_weekend`,
  `create_calendar`, `delete_latest_calendar_message`,
  `create_new_notifications_msg_db`, the `cache_ready` loop);
* `src/util/database.rs` — the mongodb generation (`Weekend::get_next_session`).

Each function below is a direct translation of the named Rust function.
Timestamps and durations are modelled as `Int` milliseconds (chrono datetimes
have sub-second precision; the claims probe 1 ms boundaries).  chrono's
`Duration::num_minutes`/`num_seconds` truncate toward zero, which is `Int.tdiv`.
-/

/-- chrono `Duration::num_minutes`: whole minutes, truncated toward zero.
The argument is a signed duration in milliseconds. -/
def numMinutes (d : Int) : Int := Int.tdiv d 60000

/-- chrono `Duration::num_seconds`: whole seconds, truncated toward zero. -/
def numSeconds (d : Int) : Int := Int.tdiv d 1000

/-- chrono `DateTime::timestamp`: seconds since the epoch (floor). -/
def timestampSec (ms : Int) : Int := Int.fdiv ms 1000

/-- Truncating division expressed through Euclidean division, so that `omega`
can reason about it. -/
theorem tdiv_eq_ite_ediv (d m : Int) (hm : 0 ≤ m) :
    Int.tdiv d m = if 0 ≤ d then d / m else -((-d) / m) := by
  by_cases h : 0 ≤ d
  · rw [if_pos h, Int.tdiv_eq_ediv h hm]
  · have h2 : 0 ≤ -d := by omega
    rw [if_neg h]
    have h3 : d.tdiv m = (-(-d)).tdiv m := by rw [Int.neg_neg]
    rw [h3, Int.neg_tdiv, Int.tdiv_eq_ediv h2 hm]

/-- `sessions.status` in `src/model/mod.rs` (`SessionStatus`): the variant the
sqlx model calls `Done` and the libsql model (`f1_bot_types`) calls `Finished`
is the same terminal "already notified" state; it is named `Finished` here. -/
inductive SessionStatus
  | Open
  | Delayed
  | Cancelled
  | Finished
  | Unsupported
  deriving DecidableEq, Repr

/-- `NotificationSetting` in `src/model/mod.rs`. -/
inductive NotificationSetting
  | Notify
  | Ignore
  deriving DecidableEq, Repr

/-- `SessionKind` in `src/model/mod.rs`. -/
inductive SessionKind
  | Custom
  | Practice
  | Qualifying
  | Race
  | SprintRace
  | SprintQuali
  | PreSeasonTest
  | FeatureRace
  | Unsupported
  deriving DecidableEq, Repr

/-- `Series` in `src/model/mod.rs`. -/
inductive Series
  | F1
  | F2
  | F3
  | F1Academy
  | Unsupported
  deriving DecidableEq, Repr

/-- `WeekendStatus` in `src/model/mod.rs`. -/
inductive WeekendStatus
  | Open
  | Cancelled
  | Done
  deriving DecidableEq, Repr

/-- `Session` in `src/model/mod.rs` (one row of the `sessions` table).
`date` is a timestamp in milliseconds, `duration` is in seconds (the source
compares `num_seconds() < -session.duration`). -/
structure Session where
  id : Int
  weekend : Int
  kind : SessionKind
  status : SessionStatus
  notify : NotificationSetting
  duration : Int
  date : Int
  number : Option Int
  title : Option String
  deriving DecidableEq, Repr

/-- `Weekend` in `src/model/mod.rs` (a `weekends` row joined with its
sessions, as `get_current_weekend` produces it). -/
structure Weekend where
  id : Int
  series : Series
  name : String
  icon : String
  sessions : List Session
  year : Int
  start_date : Int
  status : WeekendStatus
  deriving DecidableEq, Repr

/-- `MessageKind` in `src/model/mod.rs`. -/
inductive MessageKind
  | Persistent
  | Notification
  | Calendar
  | Weekend
  | Unsupported
  deriving DecidableEq, Repr

/-- A `messages` table row (`BotMessage` in `src/model/mod.rs`; the libsql
schema used by `src/util/helpers.rs` adds the optional `expiry` column). -/
structure BotMessage where
  id : Int
  channel : Int
  message : Int
  kind : MessageKind
  posted : Int
  hash : Int
  series : Series
  expiry : Option Int
  deriving DecidableEq, Repr

/-- `Error` in `src/error.rs`, restricted to the classes the claims test:
`NotFound` versus everything else. -/
inductive Error
  | NotFound
  | Sqlx
  | Serenity
  deriving DecidableEq, Repr

/-! ## Session scheduler (sqlx generation, `src/bot/notifs.rs`) -/

/-- The row update of `mark_session_notified`: `UPDATE sessions SET status =
'Done' WHERE id = $1`, applied to one row. -/
def markFun (id : Int) (s : Session) : Session :=
  if s.id = id then { s with status := .Finished } else s

/-- `mark_session_notified` (`src/bot/notifs.rs:307-328`):
`UPDATE sessions SET status = 'Done' WHERE id = $1`, then `Err(NotFound)` when
`rows_affected() == 0`, else `Ok`.  The database is the list of session rows;
Postgres reports every matched row as affected. -/
def mark_session_notified (id : Int) (db : List Session) :
    Except Error (List Session) :=
  if (db.filter fun s => s.id = id).length = 0 then
    .error .NotFound
  else
    .ok (db.map (markFun id))

/-- `mark_weekend_done` (`src/bot/notifs.rs:230-251`):
`UPDATE weekends SET status = 'Done' WHERE id = $2`, `Err(NotFound)` iff no row
was affected. -/
def mark_weekend_done (id : Int) (db : List Weekend) :
    Except Error (List Weekend) :=
  if (db.filter fun w => w.id = id).length = 0 then
    .error .NotFound
  else
    .ok (db.map fun w => if w.id = id then { w with status := .Done } else w)

/-- The window test inlined in `check_notify_session`
(`src/bot/notifs.rs:92-93`): `difference = Utc::now() - session.date;
difference.num_minutes() > -5 && difference.num_minutes() < 0`. -/
def notif_window (now : Int) (s : Session) : Prop :=
  numMinutes (now - s.date) > -5 ∧ numMinutes (now - s.date) < 0

instance (now : Int) (s : Session) : Decidable (notif_window now s) := by
  unfold notif_window; infer_instance

/-- Result of one `check_notify_session` call: a session to notify, nothing to
do, or a propagated database error. -/
inductive NotifyResult
  | found (s : Session)
  | nothing
  | failed (e : Error)
  deriving DecidableEq, Repr

/-- The loop body of `check_notify_session` (`src/bot/notifs.rs:73-102`).
It walks the in-memory snapshot (second list argument) while the database
(first list argument) accumulates the `mark_session_notified` side effects
performed on `Ignore`-preference sessions.  Only `Open` sessions are examined:
`Delayed`, `Cancelled`, `Done` and `Unsupported` are all skipped with
`continue`. -/
def check_notify_go (now : Int) (db : List Session) :
    List Session → NotifyResult × List Session
  | [] => (.nothing, db)
  | s :: rest =>
    match s.status with
    | .Open =>
      if notif_window now s then
        match s.notify with
        | .Notify => (.found s, db)
        | .Ignore =>
          match mark_session_notified s.id db with
          | .error e => (.failed e, db)
          | .ok db2 => check_notify_go now db2 rest
      else check_notify_go now db rest
    | _ => check_notify_go now db rest

/-- `check_notify_session` (`src/bot/notifs.rs:73-102`): the snapshot it
iterates over is the freshly loaded state of the very rows it may update. -/
def check_notify_session (now : Int) (db : List Session) :
    NotifyResult × List Session :=
  check_notify_go now db db

/-- The notification phase of `runner` (`src/bot/notifs.rs:196-228`):
`check_notify_session`, then — before any send — `mark_session_notified` on the
returned session ("if the session cannot be marked as notified log the error
and do not notify!"), then `send_message`.  `send_ok` is the outcome of the
Discord send; the session rows are unaffected by it either way.  Returns the
final rows, the session a notification was attempted for, and whether the
notification was delivered. -/
def runner_notify_after (send_ok : Bool) :
    NotifyResult × List Session → List Session × Option Session × Bool
  | (.failed _, db2) => (db2, none, false)
  | (.nothing, db2) => (db2, none, false)
  | (.found s, db2) =>
    match mark_session_notified s.id db2 with
    | .error _ => (db2, none, false)
    | .ok db3 => (db3, some s, send_ok)

/-- The notification phase of `runner`, assembled: scan, then mark-then-send. -/
def runner_notify (now : Int) (send_ok : Bool) (db : List Session) :
    List Session × Option Session × Bool :=
  runner_notify_after send_ok (check_notify_session now db)

/-- `runner` re-entered `n` times at time `now` (sends succeeding or not does
not matter for the session rows). -/
def runner_iterate (now : Int) : Nat → List Session → List Session
  | 0, db => db
  | n + 1, db => runner_iterate now n (runner_notify now true db).1

/-- The `has_open_sessions` scan of `runner` (`src/bot/notifs.rs:164-175`):
the weekend is marked done exactly when no session has status `Open`
(the sqlx model spells `Finished` as `Done`). -/
def has_open_sessions (sessions : List Session) : Bool :=
  sessions.any fun s => s.status = .Open

/-! ## Session scheduler (libsql generation, `src/util/helpers.rs`) -/

/-- The window-and-status test inlined in `check_active_session`
(`src/util/helpers.rs:249-257`): status `Open` or `Delayed`, and
`start_date.signed_duration_since(now).num_minutes()` matching `0..5`.
The notification preference is not consulted. -/
def active_filter (now : Int) (s : Session) : Bool :=
  (s.status = .Open ∨ s.status = .Delayed) ∧
    (0 ≤ numMinutes (s.date - now) ∧ numMinutes (s.date - now) < 5)

/-- `check_active_session` (`src/util/helpers.rs:241-262`), applied to the
sessions of the already-fetched next weekend: `sessions.into_iter().find(...)`. -/
def check_active_session (now : Int) (sessions : List Session) :
    Option Session :=
  sessions.find? (active_filter now)

/-- `check_expired_weekend` (`src/util/helpers.rs:312-340`): re-fetch the
weekend by id (`fetch_full_weekend`, modelled as a lookup in the weekend
list), return `None` if it is already `Done`, otherwise report its series iff
every session — with the just-notified session's fresh status substituted by
id — is `Finished` or `Cancelled`.  `all` on an empty session list is true. -/
def check_expired_weekend (db : List Weekend) (weekend : Weekend)
    (session : Session) : Option Series :=
  match db.find? fun w => w.id = weekend.id with
  | none => none
  | some w =>
    if w.status = .Done then none
    else if w.sessions.all fun f =>
        (if f.id = session.id then session.status else f.status) = .Finished ∨
        (if f.id = session.id then session.status else f.status) = .Cancelled
    then some w.series
    else none

/-- `mark_session_done` of the libsql generation (called from
`src/bot/mod.rs:288-292`; the query itself lives in the `util` module that is
not under `src/`).  Modelled from the spec: `set_session_status(id, Finished)`
sets the session's status to `Finished`. -/
def mark_session_done (id : Int) (db : List Session) : List Session :=
  db.map fun s => if s.id = id then { s with status := .Finished } else s

/-- The notification phase of `cache_ready` (`src/bot/mod.rs:268-303`):
`send_notification` is attempted first; only on success (`Ok`) is
`mark_session_done` run.  On a send error the loop `continue`s with the
session rows untouched, so the next iteration retries.  `sess` is the
actionable session `full_weekend.next_session()` reported (that helper lives
in the external `f1_bot_types` crate). -/
def cache_ready_notify (send_ok : Bool) (sess : Option Session)
    (db : List Session) : List Session × Bool :=
  match sess with
  | none => (db, false)
  | some s => if send_ok then (mark_session_done s.id db, true) else (db, false)

/-! ## Session scheduler (mongodb generation, `src/util/database.rs`) -/

/-- The timed payload shared by every concrete `SessionType` variant of
`src/util/database.rs` (`time`, `notified`; the display-only `duration`,
`number` and `name` fields play no role in `get_next_session`). -/
structure TimedSession where
  time : Int
  notified : Bool
  deriving DecidableEq, Repr

/-- `SessionType` in `src/util/database.rs`. -/
inductive SessionType
  | NoneS
  | Test (s : TimedSession)
  | Practice (s : TimedSession)
  | SprintQuali (s : TimedSession)
  | Shootout (s : TimedSession)
  | Qualifying (s : TimedSession)
  | Custom (s : TimedSession)
  | Sprint (s : TimedSession)
  | Race (s : TimedSession)
  deriving DecidableEq, Repr

/-- `SessionType::is_notified` (`src/util/database.rs:43-55`): the `None`
variant counts as already notified. -/
def SessionType.is_notified : SessionType → Bool
  | .NoneS => true
  | .Test s | .Practice s | .SprintQuali s | .Shootout s
  | .Qualifying s | .Custom s | .Sprint s | .Race s => s.notified

/-- `SessionType::time_until` (`src/util/database.rs:313-335`):
`Utc::now().signed_duration_since(sess.time).num_minutes()`, `None` for the
`None` variant. -/
def SessionType.time_until (now : Int) : SessionType → Option Int
  | .NoneS => none
  | .Test s | .Practice s | .SprintQuali s | .Shootout s
  | .Qualifying s | .Custom s | .Sprint s | .Race s =>
    some (numMinutes (now - s.time))

/-- `WeekendState` in `src/util/database.rs`. -/
inductive WeekendState
  | NoneW
  | FutureSession
  | CurrentSession (i : Nat) (s : SessionType)
  deriving DecidableEq, Repr

/-- The loop body of `Weekend::get_next_session`
(`src/util/database.rs:345-381`), folding over the enumerated sessions. -/
def get_next_session_go (now : Int) :
    Nat → WeekendState → List SessionType → WeekendState
  | _, value, [] => value
  | i, value, sess :: rest =>
    if sess.is_notified then get_next_session_go now (i + 1) value rest
    else
      match sess.time_until now with
      | none => get_next_session_go now (i + 1) value rest
      | some time_until =>
        let value1 :=
          match value with
          | .NoneW => if time_until < -6 then .FutureSession else value
          | _ => value
        let value2 :=
          if -6 ≤ time_until ∧ time_until ≤ 0 then
            .CurrentSession i sess
          else value1
        get_next_session_go now (i + 1) value2 rest

/-- `Weekend::get_next_session` (`src/util/database.rs:345-381`). -/
def get_next_session (now : Int) (sessions : List SessionType) : WeekendState :=
  get_next_session_go now 0 .NoneW sessions

/-! ## Calendar reconciliation (`src/util/helpers.rs`, `src/bot/calendar.rs`) -/

/-- One network operation issued while reconciling the calendar board. -/
inductive CalendarOp
  | create
  | deleteMsg (m : BotMessage)
  deriving DecidableEq, Repr

/-- `delete_latest_calendar_message` (`src/util/helpers.rs:98-126`): re-fetch
the Calendar messages, delete the last one (the repository returns them in
posting order — `ORDER BY posted ASC` in the sqlx twin `get_calendar_notifs`,
`src/bot/calendar.rs:21-39` — so the last is the most recently created);
a missing last message is a no-op `Ok`. -/
def delete_latest_calendar_message (ms : List BotMessage) :
    List BotMessage × List CalendarOp :=
  match ms.getLast? with
  | none => (ms, [])
  | some last => (ms.dropLast, [.deleteMsg last])

/-- The `Ordering::Greater` arm of `create_calendar`
(`src/util/helpers.rs:145-151`): `diff` sequential calls of
`delete_latest_calendar_message`, each re-fetching the current list. -/
def delete_latest_loop : Nat → List BotMessage → List BotMessage × List CalendarOp
  | 0, ms => (ms, [])
  | n + 1, ms =>
    let step := delete_latest_calendar_message ms
    let rest := delete_latest_loop n step.1
    (rest.1, step.2 ++ rest.2)

/-- `create_calendar` (`src/util/helpers.rs:128-156`): compare the number of
existing Calendar messages with the number of weekends for the series; create
the difference one at a time when short (each via
`create_new_calendar_message`, with a 300 ms inter-call sleep), delete the
latest repeatedly when over, do nothing when equal.  Returns the operations
issued. -/
def create_calendar (ms : List BotMessage) (weekends : List Weekend) :
    List CalendarOp :=
  match compare ms.length weekends.length with
  | .lt => List.replicate (weekends.length - ms.length) .create
  | .gt => (delete_latest_loop (ms.length - weekends.length) ms).2
  | .eq => []

/-- `populate_calendar` (`src/bot/calendar.rs:67-90`), the sqlx twin: it only
creates missing reserved messages (`notifs.len()..calendar.len()`); there is
no branch deleting surplus messages.  Returns the operations issued on the
error-free path. -/
def populate_calendar (notifs : List BotMessage) (calendar : List Weekend) :
    List CalendarOp :=
  if notifs.length < calendar.length then
    List.replicate (calendar.length - notifs.length) .create
  else []

/-- Number of create calls in an operation list. -/
def countCreates (ops : List CalendarOp) : Nat :=
  (ops.filter fun o => o = .create).length

/-- Number of delete calls in an operation list. -/
def countDeletes (ops : List CalendarOp) : Nat :=
  (ops.filter fun o => o ≠ .create).length

/-! ## Notification expiry sweeps -/

/-- Outcome of one external (Discord) message-delete call, split into the
classes the code distinguishes: success, an HTTP error with status NOT_FOUND,
any other HTTP error, and a non-HTTP error. -/
inductive DeleteOutcome
  | ok
  | notFoundHttp
  | otherHttp
  | otherError
  deriving DecidableEq, Repr

/-- The row set selected (and afterwards deleted) by `remove_old_notifs`
(`src/bot/notifs.rs:330-369`): `kind = 'Notification' AND posted > now() +
interval '30 minutes'` — note the direction of the comparison: it matches
messages posted more than 30 minutes in the *future*. -/
def remove_old_notifs_selected (now : Int) (db : List BotMessage) :
    List BotMessage :=
  db.filter fun m => m.kind = .Notification ∧ m.posted > now + 1800000

/-- `remove_old_notifs` (`src/bot/notifs.rs:330-369`): fetch the selected
rows, fire all the external deletes, log any failures, then unconditionally
`DELETE FROM messages` with the same predicate.  `outcome` gives each
message's external delete result; it does not influence the database. -/
def remove_old_notifs (_outcome : Int → DeleteOutcome) (now : Int)
    (db : List BotMessage) : List BotMessage :=
  db.filter fun m => ¬(m.kind = .Notification ∧ m.posted > now + 1800000)

/-- The expiry recorded by `create_new_notifications_msg_db`
(`src/util/helpers.rs:264-284`): `Utc::now() +
Duration::from_secs(session.duration)`, i.e. posting time plus the session's
duration. -/
def notification_expiry (posted : Int) (session : Session) : Int :=
  posted + session.duration * 1000

/-- `expired_messages` (called by `check_expired_messages`,
`src/util/helpers.rs:47`; the query itself lives in the `util` module that is
not under `src/`).  Modelled from the spec: "finds all Notification artifacts
whose expiry has passed". -/
def expired_messages (now : Int) (db : List BotMessage) : List BotMessage :=
  db.filter fun m =>
    m.kind = .Notification ∧ ∃ e, m.expiry = some e ∧ e ≤ now

/-- `delete_message` (called by `check_expired_messages`,
`src/util/helpers.rs:68`; the query lives in the `util` module that is not
under `src/`).  Modelled from the spec: `delete_tracked_message(id)` removes
the tracked record. -/
def delete_message (id : Int) (db : List BotMessage) : List BotMessage :=
  db.filter fun m => m.id ≠ id

/-- `check_expired_messages` (`src/util/helpers.rs:43-71`): for every expired
message, attempt the external delete; on success or a NOT_FOUND HTTP error the
tracked record is deleted, on any other error the loop logs and `continue`s,
leaving the record for the next sweep. -/
def check_expired_messages (outcome : Int → DeleteOutcome) (now : Int)
    (db : List BotMessage) : List BotMessage :=
  (expired_messages now db).foldl
    (fun acc m =>
      match outcome m.id with
      | .ok => delete_message m.id acc
      | .notFoundHttp => delete_message m.id acc
      | .otherHttp => acc
      | .otherError => acc)
    db

/-! ## Content hasher (`src/model/mod.rs:275-307`) -/

/-- The enum discriminants fed to the hasher by `#[derive(Hash)]`. -/
def SessionKind.tag : SessionKind → Nat
  | .Custom => 0
  | .Practice => 1
  | .Qualifying => 2
  | .Race => 3
  | .SprintRace => 4
  | .SprintQuali => 5
  | .PreSeasonTest => 6
  | .FeatureRace => 7
  | .Unsupported => 8

/-- Discriminant of `SessionStatus` (hash order of `src/model/mod.rs`). -/
def SessionStatus.tag : SessionStatus → Nat
  | .Open => 0
  | .Delayed => 1
  | .Cancelled => 2
  | .Finished => 3
  | .Unsupported => 4

/-- Discriminant of `NotificationSetting`. -/
def NotificationSetting.tag : NotificationSetting → Nat
  | .Notify => 0
  | .Ignore => 1

/-- The `number` string of `impl Display for Session`
(`src/model/mod.rs:327-330`). -/
def Session.numberStr (s : Session) : String :=
  match s.number with
  | none => ""
  | some t => toString t

/-- `impl Display for Session` (`src/model/mod.rs:318-346`). -/
def Session.display (s : Session) : String :=
  match s.kind with
  | .Custom =>
    match s.title with
    | none => "No title supplied"
    | some t => t
  | .Practice => "`         FP" ++ s.numberStr ++ "`"
  | .Qualifying => "`  Qualifying`"
  | .Race => "`        Race`"
  | .SprintRace => "` Sprint Race`"
  | .SprintQuali => "`Sprint Quali`"
  | .FeatureRace => "`Feature Race`"
  | .PreSeasonTest => "`Pre-Season Test`"
  | .Unsupported => "Unsupported!!"

/-- One line of `impl Display for Weekend` (`src/model/mod.rs:282-294`): the
strikethrough marker appears when `session.date.signed_duration_since(now)
.num_seconds() < -session.duration`, i.e. the session ended in the past. -/
def sessionLine (now : Int) (session : Session) : String :=
  let str := if numSeconds (session.date - now) < -session.duration then "~~" else ""
  "\n> " ++ str ++ session.display ++ ": <t:" ++ toString (timestampSec session.date)
    ++ ":F>" ++ str ++ " (<t:" ++ toString (timestampSec session.date) ++ ":R>)"

/-- `impl Display for Weekend` (`src/model/mod.rs:275-297`): header then one
line per session, in stored order, rendered relative to `Utc::now()`. -/
def weekendDisplay (now : Int) (w : Weekend) : String :=
  w.icon ++ " **" ++ w.name ++ "**" ++ String.join (w.sessions.map (sessionLine now))

/-- One token of the stream fed to the hasher. -/
inductive HashTok
  | num (n : Nat)
  | int (i : Int)
  | str (s : String)
  | optInt (o : Option Int)
  | optStr (o : Option String)
  deriving DecidableEq, Repr

/-- The values `#[derive(Hash)]` on `Session` feeds to the hasher, in field
declaration order (`src/model/mod.rs:250-261`). -/
def sessionHashToks (s : Session) : List HashTok :=
  [.int s.id, .int s.weekend, .num s.kind.tag, .num s.status.tag,
   .num s.notify.tag, .int s.duration, .int s.date, .optInt s.number,
   .optStr s.title]

/-- `impl Hash for Weekend` (`src/model/mod.rs:299-307`): the value stream the
implementation feeds to the hasher — `self.sessions.hash(state)` (a length
prefix followed by every field of every session, in stored order) and then
`format!("{self}").hash(state)` (the `Display` rendering, which depends on
`Utc::now()`).  `DefaultHasher` (std `SipHasher13` with fixed keys) is a
deterministic pure function of this stream, so the produced fingerprint is a
function of exactly this data: equal streams give equal hashes, and every
field below — session ids included, the weekend's own id excluded — reaches
the hasher. -/
def weekend_hash_input (now : Int) (w : Weekend) : List HashTok :=
  .num w.sessions.length :: (w.sessions.map sessionHashToks).flatten
    ++ [.str (weekendDisplay now w)]

/-! ## Window arithmetic -/

/-- The `check_notify_session` window in raw milliseconds:
`num_minutes(now - start) ∈ (-5, 0)` is `start - now ∈ [1 min, 5 min)`. -/
theorem notif_window_iff (now : Int) (s : Session) :
    notif_window now s ↔ 60000 ≤ s.date - now ∧ s.date - now ≤ 299999 := by
  unfold notif_window numMinutes
  rw [tdiv_eq_ite_ediv (now - s.date) 60000 (by norm_num)]
  split_ifs with h <;> omega

/-- The `check_active_session` window in raw milliseconds:
`num_minutes(start - now) ∈ [0, 5)` is `start - now ∈ (-1 min, 5 min)`. -/
theorem active_window_iff (now : Int) (s : Session) :
    (0 ≤ numMinutes (s.date - now) ∧ numMinutes (s.date - now) < 5) ↔
      -59999 ≤ s.date - now ∧ s.date - now ≤ 299999 := by
  unfold numMinutes
  rw [tdiv_eq_ite_ediv (s.date - now) 60000 (by norm_num)]
  split_ifs with h <;> omega

/-- The `get_next_session` window in raw milliseconds:
`num_minutes(now - time) ∈ [-6, 0]` is `time - now ∈ (-1 min, 7 min)`. -/
theorem current_window_iff (now time : Int) :
    (-6 ≤ numMinutes (now - time) ∧ numMinutes (now - time) ≤ 0) ↔
      -59999 ≤ time - now ∧ time - now ≤ 419999 := by
  unfold numMinutes
  rw [tdiv_eq_ite_ediv (now - time) 60000 (by norm_num)]
  split_ifs with h <;> omega

/-- `check_notify_session` on a single session: reported exactly when the
session is `Open`, wants notifications, and the window test passes. -/
theorem check_notify_singleton (now : Int) (s : Session) :
    (check_notify_session now [s]).1 = .found s ↔
      s.status = .Open ∧ s.notify = .Notify ∧ notif_window now s := by
  unfold check_notify_session check_notify_go
  cases hs : s.status <;>
    simp [hs] <;>
    by_cases hw : notif_window now s <;>
      cases hn : s.notify <;>
        simp [hw, hn, mark_session_notified, check_notify_go]

/-- `check_active_session` on a single session. -/
theorem check_active_singleton (now : Int) (s : Session) :
    check_active_session now [s] = some s ↔ active_filter now s = true := by
  unfold check_active_session
  simp [List.find?]
  cases h : active_filter now s <;> simp

/-- `active_filter` in raw milliseconds. -/
theorem active_filter_iff (now : Int) (s : Session) :
    active_filter now s = true ↔
      (s.status = .Open ∨ s.status = .Delayed) ∧
        (-59999 ≤ s.date - now ∧ s.date - now ≤ 299999) := by
  unfold active_filter
  rw [← active_window_iff now s]
  simp

/-- `get_next_session` on a single race session. -/
theorem get_next_singleton (now : Int) (t : TimedSession) :
    get_next_session now [.Race t] = .CurrentSession 0 (.Race t) ↔
      t.notified = false ∧ (-59999 ≤ t.time - now ∧ t.time - now ≤ 419999) := by
  unfold get_next_session get_next_session_go
  rw [← current_window_iff now t.time]
  cases hn : t.notified <;>
    simp [SessionType.is_notified, SessionType.time_until, hn,
      get_next_session_go]
  split_ifs <;> simp_all

/-! ## Claim C3 — notify-window boundaries -/

/-- C3 (corrected): the actual notify windows.  `check_notify_session`
(`src/bot/notifs.rs:92-93`) is actionable exactly on
`start - now ∈ [1 min, 5 min)` — the whole-minute truncation of
`num_minutes() < 0` excludes the final minute before the start, so
`start - now = 0` is *not* actionable there; `check_active_session`
(`src/util/helpers.rs:249-257`) is actionable exactly on
`start - now ∈ (-1 min, 5 min)` — a session that started up to 59.999 s ago
*is* still actionable; `Weekend::get_next_session`
(`src/util/database.rs:369-374`, pattern `-6..=0`) reports a current session
exactly on `start - now ∈ (-1 min, 7 min)` — `start - now = 5 min + 1 ms` *is*
current there.  In every generation the upper bound is minute-truncated, and
none of the three implements the claimed `[0, 5 min)` window. -/
theorem c3_window_boundaries :
    (∀ now : Int, ∀ s : Session,
      (check_notify_session now [s]).1 = .found s ↔
        s.status = .Open ∧ s.notify = .Notify ∧
          (60000 ≤ s.date - now ∧ s.date - now ≤ 299999)) ∧
    (∀ now : Int, ∀ s : Session,
      check_active_session now [s] = some s ↔
        (s.status = .Open ∨ s.status = .Delayed) ∧
          (-59999 ≤ s.date - now ∧ s.date - now ≤ 299999)) ∧
    (∀ now : Int, ∀ t : TimedSession,
      get_next_session now [.Race t] = .CurrentSession 0 (.Race t) ↔
        t.notified = false ∧ (-59999 ≤ t.time - now ∧ t.time - now ≤ 419999)) := by
  refine ⟨fun now s => ?_, fun now s => ?_, fun now t => get_next_singleton now t⟩
  · rw [check_notify_singleton, notif_window_iff]
  · rw [check_active_singleton, active_filter_iff]

/-- C3 (counterexample): an `Open`, `Notify` session with `start - now = 0`
lies in the claimed `[0, 5 min)` window, yet `check_notify_session` does not
report it (its window starts at one whole minute before the start). -/
theorem c3_counterexample :
    ((0:Int) ≤
        (⟨1, 1, .Race, .Open, .Notify, 7200, 0, none, none⟩ : Session).date - 0 ∧
      (⟨1, 1, .Race, .Open, .Notify, 7200, 0, none, none⟩ : Session).date - 0 <
        300000) ∧
    (check_notify_session 0
        [⟨1, 1, .Race, .Open, .Notify, 7200, 0, none, none⟩]).1 = .nothing := by
  decide

/-! ## Claim C1 — no duplicate notifications -/

/-- All rows carrying a given id are already `Finished`. -/
def idFinished (i : Int) (db : List Session) : Prop :=
  ∀ s ∈ db, s.id = i → s.status = .Finished

theorem mark_ok_shape {i : Int} {db db2 : List Session}
    (h : mark_session_notified i db = .ok db2) : db2 = db.map (markFun i) := by
  unfold mark_session_notified at h
  split at h
  · exact absurd h (by simp)
  · simpa using h.symm

theorem idFinished_markFun_map {i : Int} (j : Int) {db : List Session}
    (h : idFinished i db) : idFinished i (db.map (markFun j)) := by
  intro s hs hid
  obtain ⟨y, hy, rfl⟩ := List.mem_map.mp hs
  by_cases hyj : y.id = j
  · simp [markFun, hyj]
  · simp [markFun, hyj] at hid ⊢
    exact h y hy hid

theorem idFinished_markFun_self (i : Int) (db : List Session) :
    idFinished i (db.map (markFun i)) := by
  intro s hs hid
  obtain ⟨y, hy, rfl⟩ := List.mem_map.mp hs
  by_cases hyi : y.id = i
  · simp [markFun, hyi]
  · simp [markFun, hyi] at hid

/-- A reported session comes from the scanned snapshot, is `Open`, inside the
window, and wants notifications. -/
theorem go_found (now : Int) :
    ∀ (l db : List Session) (s : Session),
      (check_notify_go now db l).1 = .found s →
      s ∈ l ∧ s.status = .Open ∧ notif_window now s ∧ s.notify = .Notify := by
  intro l
  induction l with
  | nil => intro db s h; simp [check_notify_go] at h
  | cons x rest ih =>
    intro db s h
    unfold check_notify_go at h
    cases hst : x.status <;> simp [hst] at h
    case Open =>
      by_cases hw : notif_window now x
      · simp [hw] at h
        cases hn : x.notify with
        | Notify =>
          simp [hn] at h
          obtain ⟨rfl⟩ := h
          exact ⟨List.mem_cons_self x rest, hst, hw, hn⟩
        | Ignore =>
          simp [hn] at h
          cases hm : mark_session_notified x.id db with
          | error e => simp [hm] at h
          | ok db2 =>
            simp [hm] at h
            obtain ⟨hmem, h2⟩ := ih db2 s h
            exact ⟨List.mem_cons_of_mem x hmem, h2⟩
      · simp [hw] at h
        obtain ⟨hmem, h2⟩ := ih db s h
        exact ⟨List.mem_cons_of_mem x hmem, h2⟩
    all_goals
      obtain ⟨hmem, h2⟩ := ih db s h
      exact ⟨List.mem_cons_of_mem x hmem, h2⟩

/-- The state side of the scan only ever applies `markFun`, so `idFinished`
is preserved. -/
theorem go_preserves (now : Int) (i : Int) :
    ∀ (l db : List Session), idFinished i db →
      idFinished i (check_notify_go now db l).2 := by
  intro l
  induction l with
  | nil => intro db h; simpa [check_notify_go] using h
  | cons x rest ih =>
    intro db h
    unfold check_notify_go
    cases hst : x.status <;> simp [hst]
    case Open =>
      by_cases hw : notif_window now x
      · simp [hw]
        cases hn : x.notify with
        | Notify => simpa using h
        | Ignore =>
          simp [hn]
          cases hm : mark_session_notified x.id db with
          | error e => simpa using h
          | ok db2 =>
            simp only
            rw [mark_ok_shape hm]
            exact ih _ (idFinished_markFun_map x.id h)
      · simp [hw]; exact ih db h
    all_goals exact ih db h

/-- Once every row of an id is `Finished`, the scan never reports that id. -/
theorem found_not_finished_id {now i : Int} {db : List Session} {s : Session}
    (hfin : idFinished i db)
    (h : (check_notify_session now db).1 = .found s) : s.id ≠ i := by
  obtain ⟨hmem, hopen, -, -⟩ := go_found now db db s h
  intro hid
  exact absurd (hfin s hmem hid) (by simp [hopen])

theorem runner_notify_preserves {now : Int} {b : Bool} {db : List Session}
    (i : Int) (h : idFinished i db) :
    idFinished i (runner_notify now b db).1 := by
  have hgo : idFinished i (check_notify_session now db).2 :=
    go_preserves now i db db h
  unfold runner_notify
  cases hr : check_notify_session now db with
  | mk r db2 =>
  rw [hr] at hgo
  cases r with
  | found s =>
    simp only [runner_notify_after]
    cases hm : mark_session_notified s.id db2 with
    | error e => simpa [hm] using hgo
    | ok db3 =>
      simp only [hm]
      show idFinished i db3
      rw [mark_ok_shape hm]
      exact idFinished_markFun_map s.id hgo
  | nothing => simpa [runner_notify_after] using hgo
  | failed e => simpa [runner_notify_after] using hgo

theorem runner_iterate_preserves {now : Int} (i : Int) :
    ∀ (n : Nat) (db : List Session), idFinished i db →
      idFinished i (runner_iterate now n db) := by
  intro n
  induction n with
  | zero => intro db h; exact h
  | succ n ih =>
    intro db h
    exact ih _ (runner_notify_preserves i h)

/-- After a `runner` pass notifies session `s`, every row of `s.id` is
`Finished`. -/
theorem runner_notify_marks {now : Int} {b sent : Bool}
    {db db₁ : List Session} {s : Session}
    (h : runner_notify now b db = (db₁, some s, sent)) : idFinished s.id db₁ := by
  unfold runner_notify at h
  cases hr : check_notify_session now db with
  | mk r db2 =>
  rw [hr] at h
  cases r with
  | nothing => simp [runner_notify_after] at h
  | failed e => simp [runner_notify_after] at h
  | found s2 =>
    simp only [runner_notify_after] at h
    cases hm : mark_session_notified s2.id db2 with
    | error e => rw [hm] at h; simp at h
    | ok db3 =>
      rw [hm] at h
      simp at h
      obtain ⟨rfl, rfl, rfl⟩ := h
      rw [mark_ok_shape hm]
      exact idFinished_markFun_self _ _

/-- C1 (confirmed): once `runner` has obtained session `s` from
`check_notify_session` and marked it `Finished` (`mark_session_notified` runs
unconditionally before the send), no later iteration of the loop — at the same
or any other time, repeated any number of times — reports `s` again; and a
session whose status is terminal (`Finished`/`Done` or `Cancelled`) is never
reported actionable. -/
theorem c1_no_duplicate_notifications
    (now : Int) (b sent : Bool) (db db₁ : List Session) (s : Session)
    (h : runner_notify now b db = (db₁, some s, sent)) :
    (∀ (now2 : Int) (n : Nat),
      (check_notify_session now2 (runner_iterate now2 n db₁)).1 ≠ .found s) ∧
    (∀ (t : Int) (dbx : List Session) (sx : Session), sx ∈ dbx →
      (sx.status = .Finished ∨ sx.status = .Cancelled) →
      (check_notify_session t dbx).1 ≠ .found sx) := by
  constructor
  · intro now2 n hfound
    have hfin : idFinished s.id (runner_iterate now2 n db₁) :=
      runner_iterate_preserves s.id n db₁ (runner_notify_marks h)
    exact found_not_finished_id hfin hfound rfl
  · intro t dbx sx hmem hterm hfound
    obtain ⟨hmem2, hopen, -, -⟩ := go_found t dbx dbx sx hfound
    rcases hterm with h1 | h1 <;> simp [h1] at hopen

/-- Witness for C1 at a concrete database: one `Open`/`Notify` race session
2 minutes before its start is notified and marked; the next loop pass does not
report it again. -/
theorem c1_no_duplicate_notifications_witness :
    (check_notify_session 0 (runner_iterate 0 1
        [⟨1, 1, .Race, .Finished, .Notify, 7200, 120000, none, none⟩])).1 ≠
      .found (⟨1, 1, .Race, .Open, .Notify, 7200, 120000, none, none⟩ : Session) :=
  (c1_no_duplicate_notifications 0 true true
      [⟨1, 1, .Race, .Open, .Notify, 7200, 120000, none, none⟩]
      [⟨1, 1, .Race, .Finished, .Notify, 7200, 120000, none, none⟩]
      ⟨1, 1, .Race, .Open, .Notify, 7200, 120000, none, none⟩
      (by decide)).1 0 1

/-! ## Claim C2 — send-failure atomicity -/

/-- C2 (counterexample): in `runner` (`src/bot/notifs.rs:208-227`) a failed
send does *not* leave the session `Open`: the session was already flipped to
`Finished` before the send was attempted, so the notification is lost rather
than retried. -/
theorem c2_counterexample :
    (runner_notify 0 false
        [⟨1, 1, .Race, .Open, .Notify, 7200, 120000, none, none⟩]).2.2 = false ∧
    (runner_notify 0 false
        [⟨1, 1, .Race, .Open, .Notify, 7200, 120000, none, none⟩]).1 ≠
      [⟨1, 1, .Race, .Open, .Notify, 7200, 120000, none, none⟩] ∧
    (runner_notify 0 false
        [⟨1, 1, .Race, .Open, .Notify, 7200, 120000, none, none⟩]).1 =
      [⟨1, 1, .Race, .Finished, .Notify, 7200, 120000, none, none⟩] := by
  decide

/-- C2 (corrected): the two generations order mark and send differently.
In `runner` the stored rows do not depend on the send outcome at all — the
session is marked `Finished` before the send, so a failed send (third
conjunct: delivery reported `false`) still leaves every row of the session's
id `Finished` and nothing retries.  In `cache_ready`
(`src/bot/mod.rs:268-292`) the send comes first: a failed send leaves the rows
untouched (so the next iteration retries), and only a successful send runs
`mark_session_done`. -/
theorem c2_send_failure_semantics :
    (∀ (now : Int) (db : List Session),
      (runner_notify now false db).1 = (runner_notify now true db).1) ∧
    (∀ (now : Int) (db db₁ : List Session) (s : Session) (sent : Bool),
      runner_notify now false db = (db₁, some s, sent) →
      sent = false ∧ idFinished s.id db₁) ∧
    (∀ (s : Session) (db : List Session),
      cache_ready_notify false (some s) db = (db, false)) ∧
    (∀ (s : Session) (db : List Session),
      cache_ready_notify true (some s) db = (mark_session_done s.id db, true)) := by
  refine ⟨fun now db => ?_, fun now db db₁ s sent h => ?_, fun s db => rfl,
    fun s db => rfl⟩
  · unfold runner_notify
    cases hr : check_notify_session now db with
    | mk r db2 =>
      cases r with
      | found s =>
        simp only [runner_notify_after]
        cases hm : mark_session_notified s.id db2 with
        | error e => simp [hm]
        | ok db3 => simp [hm]
      | nothing => rfl
      | failed e => rfl
  · refine ⟨?_, runner_notify_marks h⟩
    unfold runner_notify at h
    cases hr : check_notify_session now db with
    | mk r db2 =>
    rw [hr] at h
    cases r with
    | nothing => simp [runner_notify_after] at h
    | failed e => simp [runner_notify_after] at h
    | found s2 =>
      simp only [runner_notify_after] at h
      cases hm : mark_session_notified s2.id db2 with
      | error e => rw [hm] at h; simp at h
      | ok db3 =>
        rw [hm] at h
        simp at h
        exact h.2.2

/-- Witness for C2 at a concrete database: a failed send still ends with the
session's rows `Finished`. -/
theorem c2_send_failure_semantics_witness :
    false = false ∧
      idFinished (⟨1, 1, .Race, .Open, .Notify, 7200, 120000, none,
          none⟩ : Session).id
        [⟨1, 1, .Race, .Finished, .Notify, 7200, 120000, none, none⟩] :=
  c2_send_failure_semantics.2.1 0
    [⟨1, 1, .Race, .Open, .Notify, 7200, 120000, none, none⟩]
    [⟨1, 1, .Race, .Finished, .Notify, 7200, 120000, none, none⟩]
    ⟨1, 1, .Race, .Open, .Notify, 7200, 120000, none, none⟩ false (by decide)

/-! ## Claim C4 — actionability filter -/

/-- The condition under which `check_notify_session` reports a session:
status `Open` (only), window, preference `Notify`. -/
def notif_filter (now : Int) (x : Session) : Bool :=
  x.status = .Open ∧ notif_window now x ∧ x.notify = .Notify

theorem markFun_id (i : Int) (s : Session) : (markFun i s).id = s.id := by
  unfold markFun; split <;> rfl

theorem mark_ok_of_mem {i : Int} {db : List Session} (h : ∃ y ∈ db, y.id = i) :
    mark_session_notified i db = .ok (db.map (markFun i)) := by
  obtain ⟨y, hy, hid⟩ := h
  unfold mark_session_notified
  rw [if_neg]
  intro hlen
  rw [List.length_eq_zero] at hlen
  have hmem : y ∈ db.filter fun s => s.id = i := by
    rw [List.mem_filter]; exact ⟨hy, by simp [hid]⟩
  rw [hlen] at hmem
  simp at hmem

/-- The scan reports exactly the first session of the snapshot satisfying
`notif_filter`, as long as every scanned id is present in the database. -/
theorem go_found_iff (now : Int) :
    ∀ (l db : List Session), (∀ x ∈ l, ∃ y ∈ db, y.id = x.id) →
      ∀ s : Session,
        ((check_notify_go now db l).1 = .found s ↔
          l.find? (notif_filter now) = some s) := by
  intro l
  induction l with
  | nil => intro db hids s; simp [check_notify_go]
  | cons x rest ih =>
    intro db hids s
    have hidsr : ∀ z ∈ rest, ∃ y ∈ db, y.id = z.id :=
      fun z hz => hids z (List.mem_cons_of_mem x hz)
    unfold check_notify_go
    cases hst : x.status with
    | Open =>
      by_cases hw : notif_window now x
      · cases hn : x.notify with
        | Notify =>
          have hf : notif_filter now x = true := by
            simp [notif_filter, hst, hw, hn]
          simp [hw, hf, List.find?_cons_of_pos]
        | Ignore =>
          have hf : ¬ notif_filter now x = true := by
            simp [notif_filter, hn]
          have hm := mark_ok_of_mem (hids x (List.mem_cons_self x rest))
          rw [List.find?_cons_of_neg _ hf]
          simp only [hw, if_true, hn, hm]
          refine ih (db.map (markFun x.id)) ?_ s
          intro z hz
          obtain ⟨y, hy, hyid⟩ := hidsr z hz
          exact ⟨markFun x.id y, List.mem_map_of_mem _ hy,
            by rw [markFun_id]; exact hyid⟩
      · have hf : ¬ notif_filter now x = true := by
          simp [notif_filter, hw]
        rw [List.find?_cons_of_neg _ hf]
        simp only [hw, if_false]
        exact ih db hidsr s
    | Delayed =>
      have hf : ¬ notif_filter now x = true := by simp [notif_filter, hst]
      rw [List.find?_cons_of_neg _ hf]
      exact ih db hidsr s
    | Cancelled =>
      have hf : ¬ notif_filter now x = true := by simp [notif_filter, hst]
      rw [List.find?_cons_of_neg _ hf]
      exact ih db hidsr s
    | Finished =>
      have hf : ¬ notif_filter now x = true := by simp [notif_filter, hst]
      rw [List.find?_cons_of_neg _ hf]
      exact ih db hidsr s
    | Unsupported =>
      have hf : ¬ notif_filter now x = true := by simp [notif_filter, hst]
      rw [List.find?_cons_of_neg _ hf]
      exact ih db hidsr s

/-- When the scan completes without reporting (no `Notify` session qualifies),
every `Open`, in-window, `Ignore`-preference session of the snapshot has all
rows of its id `Finished` in the resulting state. -/
theorem go_ignore_marks (now : Int) :
    ∀ (l db : List Session), (∀ x ∈ l, ∃ y ∈ db, y.id = x.id) →
      l.find? (notif_filter now) = none →
      ∀ x ∈ l, x.status = .Open → notif_window now x → x.notify = .Ignore →
        idFinished x.id (check_notify_go now db l).2 := by
  intro l
  induction l with
  | nil => intro db hids hnone x hx; simp at hx
  | cons y rest ih =>
    intro db hids hnone x hx hopen hwin hign
    have hidsr : ∀ z ∈ rest, ∃ w ∈ db, w.id = z.id :=
      fun z hz => hids z (List.mem_cons_of_mem y hz)
    rw [List.find?_eq_none] at hnone
    have hnoner : rest.find? (notif_filter now) = none := by
      rw [List.find?_eq_none]
      exact fun z hz => hnone z (List.mem_cons_of_mem y hz)
    unfold check_notify_go
    cases hst : y.status with
    | Open =>
      by_cases hw : notif_window now y
      · cases hn : y.notify with
        | Notify =>
          exact absurd (by simp [notif_filter, hst, hw, hn])
            (hnone y (List.mem_cons_self y rest))
        | Ignore =>
          have hm := mark_ok_of_mem (hids y (List.mem_cons_self y rest))
          simp only [hw, if_true, hn, hm]
          rcases List.mem_cons.mp hx with rfl | hxr
          · exact go_preserves now x.id rest _ (idFinished_markFun_self x.id db)
          · refine ih (db.map (markFun y.id)) ?_ hnoner x hxr hopen hwin hign
            intro z hz
            obtain ⟨w, hwmem, hwid⟩ := hidsr z hz
            exact ⟨markFun y.id w, List.mem_map_of_mem _ hwmem,
              by rw [markFun_id]; exact hwid⟩
      · simp only [hw, if_false]
        rcases List.mem_cons.mp hx with rfl | hxr
        · exact absurd hwin hw
        · exact ih db hidsr hnoner x hxr hopen hwin hign
    | Delayed =>
      rcases List.mem_cons.mp hx with rfl | hxr
      · simp [hst] at hopen
      · exact ih db hidsr hnoner x hxr hopen hwin hign
    | Cancelled =>
      rcases List.mem_cons.mp hx with rfl | hxr
      · simp [hst] at hopen
      · exact ih db hidsr hnoner x hxr hopen hwin hign
    | Finished =>
      rcases List.mem_cons.mp hx with rfl | hxr
      · simp [hst] at hopen
      · exact ih db hidsr hnoner x hxr hopen hwin hign
    | Unsupported =>
      rcases List.mem_cons.mp hx with rfl | hxr
      · simp [hst] at hopen
      · exact ih db hidsr hnoner x hxr hopen hwin hign

/-- C4 (corrected): `check_notify_session` reports the first session whose
status is `Open` (a `Delayed` session is skipped, contrary to the claim),
whose window test passes and whose preference is `Notify`; when no such
session exists, every `Open`, in-window, `Ignore`-preference session has been
advanced to `Finished` in the resulting state.  `check_active_session`, by
contrast, accepts `Open` *or* `Delayed` but never consults the preference at
all (and advances nothing). -/
theorem c4_actionability_filter :
    (∀ (now : Int) (db : List Session) (s : Session),
      (check_notify_session now db).1 = .found s ↔
        db.find? (notif_filter now) = some s) ∧
    (∀ (now : Int) (db : List Session) (s : Session),
      check_active_session now db = some s →
        (s.status = .Open ∨ s.status = .Delayed) ∧
          0 ≤ numMinutes (s.date - now) ∧ numMinutes (s.date - now) < 5) ∧
    (∀ (now : Int) (db : List Session),
      db.find? (notif_filter now) = none →
      ∀ x ∈ db, x.status = .Open → notif_window now x → x.notify = .Ignore →
        idFinished x.id (check_notify_session now db).2) := by
  refine ⟨fun now db s => ?_, fun now db s h => ?_, fun now db hnone x hx => ?_⟩
  · exact go_found_iff now db db (fun x hx => ⟨x, hx, rfl⟩) s
  · have := List.find?_some h
    simpa [active_filter] using this
  · exact go_ignore_marks now db db (fun x hx => ⟨x, hx, rfl⟩) hnone x hx

/-- Witness for C4 at a concrete database holding one `Open`, in-window,
`Ignore`-preference session: the scan reports nothing and the session's row
ends `Finished`. -/
theorem c4_actionability_filter_witness :
    idFinished (⟨2, 1, .Practice, .Open, .Ignore, 3600, 120000, none,
        none⟩ : Session).id
      (check_notify_session 0
        [⟨2, 1, .Practice, .Open, .Ignore, 3600, 120000, none, none⟩]).2 :=
  c4_actionability_filter.2.2 0
    [⟨2, 1, .Practice, .Open, .Ignore, 3600, 120000, none, none⟩] (by decide)
    ⟨2, 1, .Practice, .Open, .Ignore, 3600, 120000, none, none⟩ (by decide)
    (by decide) (by decide) (by decide)

/-- C4 (counterexample): a `Delayed` session with preference `Notify`, two
minutes before its start (inside every window variant), is *not* reported by
`check_notify_session`; and `check_active_session` *does* report an `Open`
session whose preference is `Ignore`.  Both directions of the claimed filter
fail. -/
theorem c4_counterexample :
    ((⟨1, 1, .Qualifying, .Delayed, .Notify, 3600, 120000, none,
        none⟩ : Session).status = .Delayed ∧
      (⟨1, 1, .Qualifying, .Delayed, .Notify, 3600, 120000, none,
        none⟩ : Session).notify = .Notify ∧
      (check_notify_session 0
        [⟨1, 1, .Qualifying, .Delayed, .Notify, 3600, 120000, none,
          none⟩]).1 = .nothing) ∧
    ((⟨2, 1, .Practice, .Open, .Ignore, 3600, 120000, none,
        none⟩ : Session).notify = .Ignore ∧
      check_active_session 0
        [⟨2, 1, .Practice, .Open, .Ignore, 3600, 120000, none, none⟩] =
        some ⟨2, 1, .Practice, .Open, .Ignore, 3600, 120000, none, none⟩) := by
  decide

/-! ## Claim C5 — weekend terminality -/

/-- C5 (corrected): the two terminality checks actually implemented.
`runner` (`src/bot/notifs.rs:164-175`) marks the weekend done exactly when no
session has status `Open` — an empty session list or a list whose only
non-terminal sessions are `Delayed` therefore counts as terminal, and the
weekend's own status is not consulted.  `check_expired_weekend`
(`src/util/helpers.rs:312-340`) reports the weekend's series exactly when the
weekend is found, its status is *not* already `Done` (the claim's
"status == Done implies true" direction is inverted there), and every session
— the just-notified one's status substituted — is `Finished` or `Cancelled`,
which is vacuously true for an empty session list. -/
theorem c5_weekend_terminality :
    (∀ sessions : List Session,
      has_open_sessions sessions = false ↔ ∀ s ∈ sessions, s.status ≠ .Open) ∧
    (∀ (db : List Weekend) (w : Weekend) (sess : Session) (ser : Series),
      check_expired_weekend db w sess = some ser ↔
        ∃ w', db.find? (fun x => x.id = w.id) = some w' ∧ ser = w'.series ∧
          ¬ w'.status = .Done ∧
          ∀ f ∈ w'.sessions,
            ((if f.id = sess.id then sess.status else f.status) = .Finished ∨
              (if f.id = sess.id then sess.status else f.status) = .Cancelled)) := by
  constructor
  · intro sessions
    simp [has_open_sessions, List.any_eq_false]
  · intro db w sess ser
    cases hf : db.find? fun x => x.id = w.id with
    | none => simp [check_expired_weekend, hf]
    | some w' =>
      simp only [check_expired_weekend, hf]
      split_ifs with hdone hall
      · simp [hdone]
      · rw [List.all_eq_true] at hall
        simp only [Option.some.injEq]
        constructor
        · rintro rfl
          refine ⟨w', rfl, rfl, hdone, fun f hf2 => ?_⟩
          simpa using hall f hf2
        · rintro ⟨w'', hw'', rfl, -, -⟩
          obtain rfl : w' = w'' := by simpa using hw''
          rfl
      · simp only [List.all_eq_true] at hall
        constructor
        · rintro ⟨⟩
        · rintro ⟨w'', hw'', rfl, -, hall2⟩
          obtain rfl : w' = w'' := by simpa using hw''
          exact absurd (fun f hf2 => by simpa using hall2 f hf2) hall

/-- C5 (counterexample): a weekend with zero sessions is treated as terminal
by both cited code paths (`runner` sees no `Open` session and marks it done;
`check_expired_weekend` reports it because `all` of an empty list is true),
a weekend whose only session is `Delayed` is likewise marked done by `runner`,
and a weekend whose status is already `Done` makes `check_expired_weekend`
return `none` — all three contradicting the claimed
`is_weekend_terminal` contract. -/
theorem c5_counterexample :
    has_open_sessions ([] : List Session) = false ∧
    check_expired_weekend
      [⟨10, .F1, "Test GP", "i", [], 2024, 0, .Open⟩]
      ⟨10, .F1, "Test GP", "i", [], 2024, 0, .Open⟩
      ⟨1, 10, .Race, .Finished, .Notify, 7200, 0, none, none⟩ = some .F1 ∧
    has_open_sessions
      [⟨1, 10, .Race, .Delayed, .Notify, 7200, 0, none, none⟩] = false ∧
    check_expired_weekend
      [⟨11, .F1, "Done GP", "i", [], 2024, 0, .Done⟩]
      ⟨11, .F1, "Done GP", "i", [], 2024, 0, .Done⟩
      ⟨1, 11, .Race, .Finished, .Notify, 7200, 0, none, none⟩ = none := by
  decide

/-! ## Claim C6 — fingerprint determinism and order-invariance -/

/-- C6 (corrected): the fingerprint input is exactly the stored session
records — in stored order, internal session ids, statuses and all — together
with the `Display` rendering at the current wall-clock time.  It therefore
*is* independent of the weekend's own id, series, year, start timestamp and
status (equal session lists, name and icon give equal hash input at any one
time), but it is *not* order-normalized, not id-free and not time-free. -/
theorem c6_fingerprint_input (now : Int) (w1 w2 : Weekend)
    (hs : w1.sessions = w2.sessions) (hn : w1.name = w2.name)
    (hi : w1.icon = w2.icon) :
    weekend_hash_input now w1 = weekend_hash_input now w2 := by
  unfold weekend_hash_input weekendDisplay
  rw [hs, hn, hi]

/-- Witness for C6: two weekends agreeing on sessions, name and icon but
differing in id, series, year, start timestamp and status hash identically. -/
theorem c6_fingerprint_input_witness :
    weekend_hash_input 0 ⟨1, .F1, "GP", "i", [], 2024, 0, .Open⟩ =
      weekend_hash_input 0 ⟨99, .F2, "GP", "i", [], 1999, 555, .Done⟩ :=
  c6_fingerprint_input 0 ⟨1, .F1, "GP", "i", [], 2024, 0, .Open⟩
    ⟨99, .F2, "GP", "i", [], 1999, 555, .Done⟩ rfl rfl rfl

/-- C6 (counterexample): two weekends whose session lists are permutations of
one another — and whose rendered `Display` content is *identical*, the two
sessions differing only in their internal ids — feed different streams to the
hasher, so the fingerprint is not a pure function of the observable display
content and is not invariant under reordering; and the same weekend hashed at
two different wall-clock times (the second one after the session's end, which
flips the strikethrough markers in `Display`) also feeds different streams. -/
theorem c6_counterexample :
    (List.Perm
      (⟨1, .F1, "GP", "i",
        [⟨1, 1, .Race, .Open, .Notify, 3600, 0, none, none⟩,
          ⟨2, 1, .Race, .Open, .Notify, 3600, 0, none, none⟩],
        2024, 0, .Open⟩ : Weekend).sessions
      (⟨1, .F1, "GP", "i",
        [⟨2, 1, .Race, .Open, .Notify, 3600, 0, none, none⟩,
          ⟨1, 1, .Race, .Open, .Notify, 3600, 0, none, none⟩],
        2024, 0, .Open⟩ : Weekend).sessions) ∧
    weekendDisplay 0
      ⟨1, .F1, "GP", "i",
        [⟨1, 1, .Race, .Open, .Notify, 3600, 0, none, none⟩,
          ⟨2, 1, .Race, .Open, .Notify, 3600, 0, none, none⟩],
        2024, 0, .Open⟩ =
      weekendDisplay 0
        ⟨1, .F1, "GP", "i",
          [⟨2, 1, .Race, .Open, .Notify, 3600, 0, none, none⟩,
            ⟨1, 1, .Race, .Open, .Notify, 3600, 0, none, none⟩],
          2024, 0, .Open⟩ ∧
    weekend_hash_input 0
      ⟨1, .F1, "GP", "i",
        [⟨1, 1, .Race, .Open, .Notify, 3600, 0, none, none⟩,
          ⟨2, 1, .Race, .Open, .Notify, 3600, 0, none, none⟩],
        2024, 0, .Open⟩ ≠
      weekend_hash_input 0
        ⟨1, .F1, "GP", "i",
          [⟨2, 1, .Race, .Open, .Notify, 3600, 0, none, none⟩,
            ⟨1, 1, .Race, .Open, .Notify, 3600, 0, none, none⟩],
          2024, 0, .Open⟩ ∧
    weekend_hash_input 0
      ⟨1, .F1, "GP", "i",
        [⟨1, 1, .Race, .Open, .Notify, 3600, 0, none, none⟩,
          ⟨2, 1, .Race, .Open, .Notify, 3600, 0, none, none⟩],
        2024, 0, .Open⟩ ≠
      weekend_hash_input 4000000
        ⟨1, .F1, "GP", "i",
          [⟨1, 1, .Race, .Open, .Notify, 3600, 0, none, none⟩,
            ⟨2, 1, .Race, .Open, .Notify, 3600, 0, none, none⟩],
          2024, 0, .Open⟩ := by
  refine ⟨by decide, rfl, by decide, by decide⟩

/-! ## Claim C7 — calendar count reconciliation -/

/-- `n` rounds of delete-latest on a list of at least `n` messages keep the
first `length - n` messages and delete the last `n`, newest first. -/
theorem delete_latest_loop_eq :
    ∀ (n : Nat) (ms : List BotMessage), n ≤ ms.length →
      delete_latest_loop n ms =
        (ms.take (ms.length - n),
          (ms.drop (ms.length - n)).reverse.map CalendarOp.deleteMsg) := by
  intro n
  induction n with
  | zero => intro ms h; simp [delete_latest_loop]
  | succ n ih =>
    intro ms h
    rcases List.eq_nil_or_concat ms with rfl | ⟨ms', a, rfl⟩
    · simp at h
    · rw [List.concat_eq_append] at *
      have hn : n ≤ ms'.length := by simp at h; omega
      unfold delete_latest_loop delete_latest_calendar_message
      rw [List.getLast?_concat]
      simp only [List.dropLast_concat]
      rw [ih ms' hn]
      have h1 : (ms' ++ [a]).length - (n + 1) = ms'.length - n := by
        simp
      rw [h1, List.take_append_of_le_length (by omega),
        List.drop_append_of_le_length (by omega)]
      simp

/-- C7 (corrected): `create_calendar` reconciles in both directions exactly
as claimed — `W - M` creates and no deletes when messages are short, `M - W`
deletes of the most recently posted messages (newest first) and no creates
when messages are over, nothing when counts match.  The sqlx twin
`populate_calendar`, however, only creates: with more messages than weekends
it issues no operations at all, never deleting the surplus. -/
theorem c7_calendar_reconciliation (ms : List BotMessage)
    (weekends : List Weekend) :
    (ms.length < weekends.length →
      create_calendar ms weekends =
        List.replicate (weekends.length - ms.length) .create ∧
      populate_calendar ms weekends =
        List.replicate (weekends.length - ms.length) .create) ∧
    (weekends.length < ms.length →
      create_calendar ms weekends =
        (ms.drop weekends.length).reverse.map CalendarOp.deleteMsg ∧
      countCreates (create_calendar ms weekends) = 0 ∧
      countDeletes (create_calendar ms weekends) =
        ms.length - weekends.length ∧
      populate_calendar ms weekends = []) ∧
    (ms.length = weekends.length →
      create_calendar ms weekends = [] ∧ populate_calendar ms weekends = []) := by
  refine ⟨fun hlt => ⟨?_, ?_⟩, fun hgt => ?_, fun heq => ⟨?_, ?_⟩⟩
  · unfold create_calendar
    rw [Nat.compare_eq_lt.mpr hlt]
  · unfold populate_calendar
    rw [if_pos hlt]
  · have hle : ms.length - weekends.length ≤ ms.length := by omega
    have hcc : create_calendar ms weekends =
        (ms.drop weekends.length).reverse.map CalendarOp.deleteMsg := by
      unfold create_calendar
      rw [Nat.compare_eq_gt.mpr hgt, delete_latest_loop_eq _ _ hle]
      have : ms.length - (ms.length - weekends.length) = weekends.length := by
        omega
      rw [this]
    refine ⟨hcc, ?_, ?_, ?_⟩
    · rw [hcc]
      simp [countCreates, List.filter_map]
      intro a ha
      obtain ⟨m, -, rfl⟩ := List.mem_map.mp (List.mem_of_mem_drop ha)
      simp
    · rw [hcc]
      simp [countDeletes, List.filter_map]
      rw [List.filter_eq_self.mpr ?_]
      · simp
      · intro a ha
        obtain ⟨m, -, rfl⟩ := List.mem_map.mp (List.mem_of_mem_drop ha)
        simp
    · unfold populate_calendar
      rw [if_neg (by omega)]
  · unfold create_calendar
    rw [Nat.compare_eq_eq.mpr heq]
  · unfold populate_calendar
    rw [if_neg (by omega)]

/-- Witness for C7 at the claim's own test values: 5 weekends and 3 messages
give exactly 2 creates; 3 weekends and 5 messages give exactly 2 deletes of
the two newest messages (and `populate_calendar` gives nothing). -/
theorem c7_calendar_reconciliation_witness :
    (create_calendar
        [⟨1, 5, 100, .Calendar, 10, 0, .F1, none⟩,
          ⟨2, 5, 101, .Calendar, 11, 0, .F1, none⟩,
          ⟨3, 5, 102, .Calendar, 12, 0, .F1, none⟩]
        [⟨1, .F1, "A", "i", [], 2024, 0, .Open⟩,
          ⟨2, .F1, "B", "i", [], 2024, 0, .Open⟩,
          ⟨3, .F1, "C", "i", [], 2024, 0, .Open⟩,
          ⟨4, .F1, "D", "i", [], 2024, 0, .Open⟩,
          ⟨5, .F1, "E", "i", [], 2024, 0, .Open⟩] =
      List.replicate 2 .create ∧
      populate_calendar
        [⟨1, 5, 100, .Calendar, 10, 0, .F1, none⟩,
          ⟨2, 5, 101, .Calendar, 11, 0, .F1, none⟩,
          ⟨3, 5, 102, .Calendar, 12, 0, .F1, none⟩]
        [⟨1, .F1, "A", "i", [], 2024, 0, .Open⟩,
          ⟨2, .F1, "B", "i", [], 2024, 0, .Open⟩,
          ⟨3, .F1, "C", "i", [], 2024, 0, .Open⟩,
          ⟨4, .F1, "D", "i", [], 2024, 0, .Open⟩,
          ⟨5, .F1, "E", "i", [], 2024, 0, .Open⟩] =
      List.replicate 2 .create) ∧
    create_calendar
((List.range 5).map fun k =>
        ⟨Int.ofNat k, 5, 100 + Int.ofNat k, .Calendar, Int.ofNat k, 0, .F1, none⟩)
      [⟨1, .F1, "A", "i", [], 2024, 0, .Open⟩,
        ⟨2, .F1, "B", "i", [], 2024, 0, .Open⟩,
        ⟨3, .F1, "C", "i", [], 2024, 0, .Open⟩] =
      [.deleteMsg ⟨4, 5, 104, .Calendar, 4, 0, .F1, none⟩,
        .deleteMsg ⟨3, 5, 103, .Calendar, 3, 0, .F1, none⟩] :=
  ⟨(c7_calendar_reconciliation _ _).1 (by decide),
    ((c7_calendar_reconciliation _ _).2.1 (by decide)).1.trans (by decide)⟩

/-- C7 (counterexample): with 5 existing Calendar messages and 3 open
weekends, the sqlx reconciliation pass `populate_calendar` issues no
operations at all — not the claimed 5 − 3 = 2 delete calls. -/
theorem c7_counterexample :
    populate_calendar
        [⟨1, 5, 100, .Calendar, 10, 0, .F1, none⟩,
          ⟨2, 5, 101, .Calendar, 11, 0, .F1, none⟩,
          ⟨3, 5, 102, .Calendar, 12, 0, .F1, none⟩,
          ⟨4, 5, 103, .Calendar, 13, 0, .F1, none⟩,
          ⟨5, 5, 104, .Calendar, 14, 0, .F1, none⟩]
        [⟨1, .F1, "A", "i", [], 2024, 0, .Open⟩,
          ⟨2, .F1, "B", "i", [], 2024, 0, .Open⟩,
          ⟨3, .F1, "C", "i", [], 2024, 0, .Open⟩] = [] ∧
    countDeletes
        (populate_calendar
          [⟨1, 5, 100, .Calendar, 10, 0, .F1, none⟩,
            ⟨2, 5, 101, .Calendar, 11, 0, .F1, none⟩,
            ⟨3, 5, 102, .Calendar, 12, 0, .F1, none⟩,
            ⟨4, 5, 103, .Calendar, 13, 0, .F1, none⟩,
            ⟨5, 5, 104, .Calendar, 14, 0, .F1, none⟩]
          [⟨1, .F1, "A", "i", [], 2024, 0, .Open⟩,
            ⟨2, .F1, "B", "i", [], 2024, 0, .Open⟩,
            ⟨3, .F1, "C", "i", [], 2024, 0, .Open⟩]) ≠ 2 := by
  decide

/-! ## Claim C8 — expiry sweep selection -/

/-- C8 (code bug): the sqlx sweep's SQL predicate is inverted.  A
Notification message posted 31 minutes *before* the sweep — whose 30-minute
fallback window has long passed — is not selected and survives the sweep
untouched, while a message stamped 31 minutes in the *future* is the one the
predicate matches and deletes.  (The libsql generation's recorded expiry,
`create_new_notifications_msg_db`, does equal posting time plus the session's
duration, as the claim states.) -/
theorem c8_expiry_sweep_bug :
    ((-1860000 : Int) + 1800000 ≤ 0) ∧
    remove_old_notifs_selected 0
        [⟨1, 5, 100, .Notification, -1860000, 0, .F1, none⟩] = [] ∧
    remove_old_notifs (fun _ => .ok) 0
        [⟨1, 5, 100, .Notification, -1860000, 0, .F1, none⟩] =
      [⟨1, 5, 100, .Notification, -1860000, 0, .F1, none⟩] ∧
    remove_old_notifs_selected 0
        [⟨2, 5, 101, .Notification, 1860000, 0, .F1, none⟩] =
      [⟨2, 5, 101, .Notification, 1860000, 0, .F1, none⟩] ∧
    (∀ (posted : Int) (s : Session),
      notification_expiry posted s = posted + s.duration * 1000) := by
  exact ⟨by norm_num, by decide, by decide, by decide, fun posted s => rfl⟩

/-! ## Claim C9 — not-found tolerance on notification deletion -/

/-- The selection predicate of `expired_messages` as a proposition. -/
def expiredPred (now : Int) (m : BotMessage) : Prop :=
  m.kind = .Notification ∧ ∃ e, m.expiry = some e ∧ e ≤ now

instance (now : Int) (m : BotMessage) : Decidable (expiredPred now m) := by
  unfold expiredPred; infer_instance

/-- One step of the `check_expired_messages` loop. -/
def sweepStep (outcome : Int → DeleteOutcome) (acc : List BotMessage)
    (m : BotMessage) : List BotMessage :=
  match outcome m.id with
  | .ok => delete_message m.id acc
  | .notFoundHttp => delete_message m.id acc
  | .otherHttp => acc
  | .otherError => acc

theorem check_expired_messages_eq_fold (outcome : Int → DeleteOutcome)
    (now : Int) (db : List BotMessage) :
    check_expired_messages outcome now db =
      (expired_messages now db).foldl (sweepStep outcome) db := rfl

theorem sweepStep_subset (outcome : Int → DeleteOutcome)
    (acc : List BotMessage) (x : BotMessage) :
    ∀ y ∈ sweepStep outcome acc x, y ∈ acc := by
  intro y hy
  unfold sweepStep at hy
  cases h : outcome x.id <;> rw [h] at hy <;>
    first
      | exact hy
      | exact List.mem_of_mem_filter hy

theorem sweepFold_subset (outcome : Int → DeleteOutcome) :
    ∀ (exp acc : List BotMessage),
      ∀ y ∈ exp.foldl (sweepStep outcome) acc, y ∈ acc := by
  intro exp
  induction exp with
  | nil => intro acc y hy; exact hy
  | cons x rest ih =>
    intro acc y hy
    exact sweepStep_subset outcome acc x y (ih (sweepStep outcome acc x) y hy)

theorem sweepFold_removes (outcome : Int → DeleteOutcome) :
    ∀ (exp acc : List BotMessage) (m : BotMessage), m ∈ exp →
      (outcome m.id = .ok ∨ outcome m.id = .notFoundHttp) →
      ∀ y ∈ exp.foldl (sweepStep outcome) acc, y.id ≠ m.id := by
  intro exp
  induction exp with
  | nil => intro acc m hm; simp at hm
  | cons x rest ih =>
    intro acc m hm hout y hy
    rcases List.mem_cons.mp hm with rfl | hmr
    · have hstep : ∀ z ∈ sweepStep outcome acc m, z.id ≠ m.id := by
        intro z hz
        unfold sweepStep at hz
        rcases hout with h | h <;>
          rw [h] at hz <;>
          simpa [delete_message] using (List.mem_filter.mp hz).2
      exact hstep y (sweepFold_subset outcome rest (sweepStep outcome acc m) y hy)
    · exact ih (sweepStep outcome acc x) m hmr hout y hy

theorem sweepFold_keeps (outcome : Int → DeleteOutcome) :
    ∀ (exp acc : List BotMessage) (m : BotMessage), m ∈ acc →
      (∀ x ∈ exp, x.id = m.id → x = m) →
      (outcome m.id = .otherHttp ∨ outcome m.id = .otherError) →
      m ∈ exp.foldl (sweepStep outcome) acc := by
  intro exp
  induction exp with
  | nil => intro acc m hm _ _; exact hm
  | cons x rest ih =>
    intro acc m hm hinj hout
    have hinjr : ∀ z ∈ rest, z.id = m.id → z = m :=
      fun z hz => hinj z (List.mem_cons_of_mem x hz)
    by_cases hx : x.id = m.id
    · obtain rfl : x = m := hinj x (List.mem_cons_self x rest) hx
      have hstep : sweepStep outcome acc x = acc := by
        unfold sweepStep
        rcases hout with h | h <;> rw [h]
      rw [List.foldl_cons, hstep]
      exact ih acc x hm hinjr hout
    · have hstep : m ∈ sweepStep outcome acc x := by
        unfold sweepStep
        cases h : outcome x.id <;>
          first
            | exact hm
            | exact List.mem_filter.mpr ⟨hm, by simpa using fun h2 => hx h2.symm⟩
      rw [List.foldl_cons]
      exact ih (sweepStep outcome acc x) m hstep hinjr hout

/-- C9 (corrected): in the libsql sweep `check_expired_messages` the claim's
behaviour holds — an expired record whose external delete succeeds or comes
back NOT_FOUND is removed from the tracked table, and one whose delete fails
with any other error is kept for the next sweep.  (The sqlx sweep
`remove_old_notifs`, by contrast, deletes the tracked rows unconditionally —
see the counterexample.) -/
theorem c9_notfound_tolerance (outcome : Int → DeleteOutcome) (now : Int)
    (db : List BotMessage) (m : BotMessage) (hm : m ∈ db) :
    (expiredPred now m →
      (outcome m.id = .ok ∨ outcome m.id = .notFoundHttp) →
      ∀ y ∈ check_expired_messages outcome now db, y.id ≠ m.id) ∧
    ((∀ x ∈ db, x.id = m.id → x = m) →
      (outcome m.id = .otherHttp ∨ outcome m.id = .otherError) →
      m ∈ check_expired_messages outcome now db) := by
  constructor
  · intro hexp hout
    rw [check_expired_messages_eq_fold]
    refine sweepFold_removes outcome _ db m ?_ hout
    unfold expired_messages
    rw [List.mem_filter]
    exact ⟨hm, by simpa [expiredPred] using hexp⟩
  · intro hinj hout
    rw [check_expired_messages_eq_fold]
    refine sweepFold_keeps outcome _ db m hm ?_ hout
    intro z hz
    exact hinj z (List.mem_of_mem_filter hz)

/-- Witness for C9: a database with an expired record answered NOT_FOUND
(removed) and an expired record answered with a transient HTTP error (kept). -/
theorem c9_notfound_tolerance_witness :
    (∀ y ∈ check_expired_messages
        (fun i => if i = 1 then .notFoundHttp else .otherHttp) 0
        [⟨1, 5, 100, .Notification, -7200000, 0, .F1, some (-3600000)⟩,
          ⟨2, 5, 101, .Notification, -7200000, 0, .F1, some (-3600000)⟩],
      y.id ≠ (⟨1, 5, 100, .Notification, -7200000, 0, .F1,
        some (-3600000)⟩ : BotMessage).id) ∧
    (⟨2, 5, 101, .Notification, -7200000, 0, .F1,
        some (-3600000)⟩ : BotMessage) ∈
      check_expired_messages
        (fun i => if i = 1 then .notFoundHttp else .otherHttp) 0
        [⟨1, 5, 100, .Notification, -7200000, 0, .F1, some (-3600000)⟩,
          ⟨2, 5, 101, .Notification, -7200000, 0, .F1, some (-3600000)⟩] :=
  ⟨(c9_notfound_tolerance
      (fun i => if i = 1 then .notFoundHttp else .otherHttp) 0
      [⟨1, 5, 100, .Notification, -7200000, 0, .F1, some (-3600000)⟩,
        ⟨2, 5, 101, .Notification, -7200000, 0, .F1, some (-3600000)⟩]
      ⟨1, 5, 100, .Notification, -7200000, 0, .F1, some (-3600000)⟩
      (by decide)).1 (by decide) (by decide),
    (c9_notfound_tolerance
      (fun i => if i = 1 then .notFoundHttp else .otherHttp) 0
      [⟨1, 5, 100, .Notification, -7200000, 0, .F1, some (-3600000)⟩,
        ⟨2, 5, 101, .Notification, -7200000, 0, .F1, some (-3600000)⟩]
      ⟨2, 5, 101, .Notification, -7200000, 0, .F1, some (-3600000)⟩
      (by decide)).2 (by decide) (by decide)⟩

/-- C9 (counterexample): the sqlx sweep `remove_old_notifs` deletes the
tracked record even when the external delete fails with a transient
(non-NOT_FOUND) error — the record selected by its predicate is removed from
the table unconditionally, so nothing is retried. -/
theorem c9_counterexample :
    remove_old_notifs (fun _ => .otherHttp) 0
        [⟨2, 5, 101, .Notification, 1860000, 0, .F1, none⟩] = [] := by
  decide

/-! ## Claim C10 — status-update result contract -/

/-- C10 (confirmed): `mark_session_notified` and `mark_weekend_done` return
`Err(NotFound)` exactly when no stored row carries the given id (zero rows
affected), and `Ok` exactly when at least one row matches. -/
theorem c10_status_update_result (id : Int) (sdb : List Session)
    (wdb : List Weekend) :
    (mark_session_notified id sdb = .error .NotFound ↔ ∀ s ∈ sdb, s.id ≠ id) ∧
    ((∃ s ∈ sdb, s.id = id) ↔ ∃ db2, mark_session_notified id sdb = .ok db2) ∧
    (mark_weekend_done id wdb = .error .NotFound ↔ ∀ w ∈ wdb, w.id ≠ id) ∧
    ((∃ w ∈ wdb, w.id = id) ↔ ∃ db2, mark_weekend_done id wdb = .ok db2) := by
  have hs : ((sdb.filter fun s => s.id = id).length = 0) ↔ ∀ s ∈ sdb, s.id ≠ id := by
    rw [List.length_eq_zero, List.filter_eq_nil_iff]
    simp
  have hw : ((wdb.filter fun w => w.id = id).length = 0) ↔ ∀ w ∈ wdb, w.id ≠ id := by
    rw [List.length_eq_zero, List.filter_eq_nil_iff]
    simp
  unfold mark_session_notified mark_weekend_done
  refine ⟨?_, ?_, ?_, ?_⟩
  · split_ifs with h
    · simp
      exact hs.mp h
    · constructor
      · intro hfalse
        exact absurd hfalse (by simp)
      · intro hall
        exact absurd (hs.mpr hall) h
  · split_ifs with h
    · constructor
      · intro ⟨st, hst, hid⟩
        exact absurd (hs.mp h st hst) (by simp [hid])
      · intro ⟨db2, hdb2⟩
        exact absurd hdb2 (by simp)
    · constructor
      · intro _
        exact ⟨_, rfl⟩
      · intro _
        by_contra hnone
        push_neg at hnone
        exact h (hs.mpr fun st hst hid => hnone st hst hid)
  · split_ifs with h
    · simp
      exact hw.mp h
    · constructor
      · intro hfalse
        exact absurd hfalse (by simp)
      · intro hall
        exact absurd (hw.mpr hall) h
  · split_ifs with h
    · constructor
      · intro ⟨wt, hwt, hid⟩
        exact absurd (hw.mp h wt hwt) (by simp [hid])
      · intro ⟨db2, hdb2⟩
        exact absurd hdb2 (by simp)
    · constructor
      · intro _
        exact ⟨_, rfl⟩
      · intro _
        by_contra hnone
        push_neg at hnone
        exact h (hw.mpr fun wt hwt hid => hnone wt hwt hid)
